import Mathlib

/-!
Verification of the `asedftk` compatibility shim (`src/asedftk/__init__.py`).

The logic of the module is embedded shallowly: the observable state of the Python
and Julia environments becomes an explicit `Env` record, Python exceptions
become `Except PyErr`, and warning emission becomes an explicit list of
emitted message strings.
-/

namespace Asedftk

/-- Python exceptions that can escape the functions of the shim. -/
inductive PyErr where
  /-- A Python `ImportError` (including `ModuleNotFoundError`). -/
  | importError (msg : String)
  /-- The pyjulia `julia.core.UnsupportedPythonError` (not an `ImportError`). -/
  | unsupportedPythonError
  /-- The Julia-side `BoundsError` raised by indexing `[end]` on an empty list. -/
  | juliaBoundsError
deriving DecidableEq, Repr

/-- A Julia version number, compared lexicographically (semver order on
major.minor.patch, which is what `VERSION >= v"x.y.z"` computes for plain
numeric versions). -/
structure JlVersion where
  major : Nat
  minor : Nat
  patch : Nat
deriving DecidableEq, Repr

/-- Comparison `a >= b` on Julia versions: lexicographic on (major, minor, patch).
Embeds the Julia expression `VERSION >= v"..."`. -/
def JlVersion.verGE (a b : JlVersion) : Bool :=
  if a.major ≠ b.major then a.major > b.major
  else if a.minor ≠ b.minor then a.minor > b.minor
  else a.patch ≥ b.patch

/-- The observable state of the Python/Julia environment as the shim sees it. -/
structure Env where
  /-- Does `import julia` succeed (is the pyjulia bridge package installed)? -/
  juliaPresent : Bool
  /-- Does `from julia import Main` succeed, i.e. is the bridge provisioned
  for this Python? When false, that import raises
  `julia.core.UnsupportedPythonError`. -/
  bridgeSupported : Bool
  /-- The Julia `VERSION` on the other side of the bridge. -/
  juliaVersion : JlVersion
  /-- Does `from julia import DFTK` succeed (raising `ImportError` otherwise)? -/
  dftkImportable : Bool
  /-- Does `from julia import JSON` succeed (raising `ImportError` otherwise)? -/
  jsonImportable : Bool
  /-- The result of `Pkg.dependencies()` as a list of (package name, version string) pairs. -/
  deps : List (String × String)
deriving DecidableEq, Repr

/-- The constant `COMPATIBLE_DFTK = ["0.1"]`: the compatible DFTK major.minor versions. -/
def COMPATIBLE_DFTK : List String := ["0.1"]

/-- Message of the `ImportError` raised by `import julia` when the bridge
package is absent. -/
def msgNoJuliaModule : String := "No module named julia"

/-- Message of the `ImportError` raised by `check_julia` on an old Julia. -/
def msgJuliaTooOld : String :=
  "Your Julia version is too old. At least 1.3.0 required"

/-- The warning emitted by `check_julia` when pyjulia raises
`UnsupportedPythonError` (exception text plus remediation instructions). -/
def msgUnsupportedPython : String :=
  "Issues between python and Julia. Try to resolve by installing " ++
  "required Julia packages using python3 -c \x22import asedftk; asedftk.install()\x22"

/-- The warning emitted by the module load block when `check_julia` is falsy. -/
def msgJuliaNotFound : String :=
  "Julia not found. Try to install Julia requirements using asedftk.install()"

/-- The warning emitted by the module load block when no compatible DFTK
is found. -/
def msgNoCompatibleDftk : String :=
  "Could not find a compatible DFTK version. Maybe DFTK is not installed " ++
  "on the Julia side or is too old. Before you can use asedftk you have " ++
  "to update it using asedftk.install()"

/-- Embeds `check_julia()`. The returned value is the Python return value
(`some true` for `True`, `none` for the implicit `None` on the caught
`UnsupportedPythonError` path) together with the warnings it emitted.
`import julia` sits outside the `try`, and the `ImportError` raised for an
old Julia is not caught by the `except julia.core.UnsupportedPythonError`
clause, so both propagate as errors. -/
def check_julia (e : Env) : Except PyErr (Option Bool × List String) :=
  if e.juliaPresent = false then
    .error (.importError msgNoJuliaModule)
  else if e.bridgeSupported = false then
    .ok (none, [msgUnsupportedPython])
  else if e.juliaVersion.verGE ⟨1, 3, 0⟩ then
    .ok (some true, [])
  else
    .error (.importError msgJuliaTooOld)

/-- Python truthiness of the return value of `check_julia` (`None` is falsy). -/
def truthy : Option Bool → Bool
  | some b => b
  | none => false

/-- Embeds `dftk_version()`. On Julia >= 1.4.0 it evaluates
`[package.version for (uuid, package) in Pkg.dependencies()
  if package.name == "DFTK"][end]`,
whose `[end]` indexing raises a `BoundsError` when the comprehension is
empty; on older Julia it returns `COMPATIBLE_DFTK[0] + ".0"`.
The leading `from julia import Main, Pkg` raises when the bridge is absent
or mis-provisioned. -/
def dftk_version (e : Env) : Except PyErr String :=
  if e.juliaPresent = false then
    .error (.importError msgNoJuliaModule)
  else if e.bridgeSupported = false then
    .error .unsupportedPythonError
  else if e.juliaVersion.verGE ⟨1, 4, 0⟩ then
    match ((e.deps.filter (fun p => p.fst == "DFTK")).map Prod.snd).getLast? with
    | some v => .ok v
    | none => .error .juliaBoundsError
  else
    .ok (COMPATIBLE_DFTK.headD "" ++ ".0")

/-- The Python expression `s.split(".")` on the character list of `s`: split at every
occurrence of `'.'`, keeping empty pieces (`"".split(".") == [""]`). -/
def splitDots : List Char → List (List Char)
  | [] => [[]]
  | c :: cs =>
    if c = '.' then [] :: splitDots cs
    else
      match splitDots cs with
      | [] => [[c]]
      | p :: ps => (c :: p) :: ps

/-- The Python expression `version.split(".")`, as a list of strings. -/
def pySplit (s : String) : List String :=
  (splitDots s.data).map List.asString

/-- The compatibility test applied to a detected version string:
`any(version.split(".")[:2] == v.split(".") for v in COMPATIBLE_DFTK)`. -/
def compatCheck (version : String) : Bool :=
  COMPATIBLE_DFTK.any (fun v => (splitDots version.data).take 2 == splitDots v.data)

/-- Embeds `has_compatible_dftk()`: `False` when `from julia import DFTK` raises
`ImportError`; otherwise the compatibility test on `dftk_version()`
(whose exceptions propagate). -/
def has_compatible_dftk (e : Env) : Except PyErr Bool :=
  if e.dftkImportable = false then
    .ok false
  else
    (dftk_version e).map compatCheck

/-- A `Pkg.add` call: package name and an optional pinned version
(from `Pkg.PackageSpec(name=..., version=...)`). -/
structure PkgAdd where
  name : String
  pinnedVersion : Option String
deriving DecidableEq, Repr

/-- What a call to `install(*args, **kwargs)` did. -/
structure InstallTrace where
  /-- Whether `julia.install(...)` (the installer of the bridge itself) was invoked. -/
  bridgeInstallerCalled : Bool
  /-- The `Pkg.add` calls performed, in order. -/
  adds : List PkgAdd
deriving DecidableEq, Repr

/-- Embeds `install(*args, **kwargs)`: `import julia`; `julia.install(...)`; then
`from julia import DFTK as jl_dftk, JSON` and, if that raises `ImportError`
(i.e. if either package is missing), `Pkg.add("JSON")` followed by
`Pkg.add(Pkg.PackageSpec(name="DFTK", version=COMPATIBLE_DFTK[-1]))`. -/
def install (e : Env) : Except PyErr InstallTrace :=
  if e.juliaPresent = false then
    .error (.importError msgNoJuliaModule)
  else
    .ok { bridgeInstallerCalled := true
          adds :=
            if e.dftkImportable && e.jsonImportable then []
            else [⟨"JSON", none⟩, ⟨"DFTK", some (COMPATIBLE_DFTK.getLastD "")⟩] }

/-- The module load block at the bottom of `__init__.py`: computes the
final `__all__` together with the warnings emitted during import, or the
exception that escapes the import. -/
def module_load (e : Env) : Except PyErr (List String × List String) :=
  match check_julia e with
  | .error err => .error err
  | .ok (ret, ws) =>
    if truthy ret = false then
      .ok (["install", "dftk_version"], ws ++ [msgJuliaNotFound])
    else
      match has_compatible_dftk e with
      | .error err => .error err
      | .ok compat =>
        if compat = false then
          .ok (["install", "dftk_version"], ws ++ [msgNoCompatibleDftk])
        else
          .ok (["install", "dftk_version", "DFTK"], ws)

/-- Joins pieces with a dot separator: the inverse direction of `splitDots`.
Used only to phrase the specification-side compatibility predicate. -/
def joinDots : List (List Char) → List Char
  | [] => []
  | [p] => p
  | p :: ps => p ++ '.' :: joinDots ps

/-- The major.minor prefix of a version string, as the specification words
it: the first two dot-separated components, rejoined with a dot. -/
def majorMinor (version : String) : List Char :=
  joinDots ((splitDots version.data).take 2)

/-- The compatibility predicate as the specification words it: the
major.minor prefix of the detected version exactly equals some entry of
`COMPATIBLE_DFTK`. To be compared against `compatCheck`, which is what the
code computes. -/
def specIsPackageCompatible (version : String) : Bool :=
  COMPATIBLE_DFTK.any (fun v => majorMinor version == v.data)

/-- A healthy environment with DFTK 0.1.7 installed Julia-side. -/
def envGood : Env :=
  { juliaPresent := true, bridgeSupported := true, juliaVersion := ⟨1, 4, 0⟩
    dftkImportable := true, jsonImportable := true, deps := [("DFTK", "0.1.7")] }

/-- An environment where the pyjulia bridge package is absent. -/
def envBridgeAbsent : Env :=
  { juliaPresent := false, bridgeSupported := true, juliaVersion := ⟨1, 4, 0⟩
    dftkImportable := true, jsonImportable := true, deps := [("DFTK", "0.1.7")] }

/-- An environment where `from julia import Main` raises
`UnsupportedPythonError`. -/
def envMisProvisioned : Env :=
  { juliaPresent := true, bridgeSupported := false, juliaVersion := ⟨1, 4, 0⟩
    dftkImportable := true, jsonImportable := true, deps := [("DFTK", "0.1.7")] }

/-- An environment whose Julia is below the minimum version 1.3.0. -/
def envOldJulia : Env :=
  { juliaPresent := true, bridgeSupported := true, juliaVersion := ⟨1, 2, 0⟩
    dftkImportable := true, jsonImportable := true, deps := [("DFTK", "0.1.7")] }

/-- An environment where JSON is importable but DFTK is not. -/
def envJsonOnly : Env :=
  { juliaPresent := true, bridgeSupported := true, juliaVersion := ⟨1, 4, 0⟩
    dftkImportable := false, jsonImportable := true, deps := [] }

/-- An environment with Julia 1.3.x, where the dependency manifest cannot
be introspected. -/
def envJulia13 : Env :=
  { juliaPresent := true, bridgeSupported := true, juliaVersion := ⟨1, 3, 5⟩
    dftkImportable := true, jsonImportable := true, deps := [] }

/-- An environment with a modern Julia where DFTK is absent from the
dependency manifest. -/
def envNoDftkDep : Env :=
  { juliaPresent := true, bridgeSupported := true, juliaVersion := ⟨1, 5, 2⟩
    dftkImportable := true, jsonImportable := true, deps := [("JSON", "0.21.4")] }

/-- An environment where DFTK is importable but its version is too new. -/
def envDftkTooNew : Env :=
  { juliaPresent := true, bridgeSupported := true, juliaVersion := ⟨1, 4, 0⟩
    dftkImportable := true, jsonImportable := true, deps := [("DFTK", "0.2.0")] }

/-! ## Helper lemmas -/

/-- No piece produced by `splitDots` contains the separator. -/
theorem splitDots_no_dot (cs : List Char) : ∀ p ∈ splitDots cs, '.' ∉ p := by
  induction cs with
  | nil =>
    intro p hp
    simp only [splitDots, List.mem_singleton] at hp
    subst hp; simp
  | cons c cs ih =>
    intro p hp
    by_cases hc : c = '.'
    · rw [splitDots, if_pos hc] at hp
      rcases List.mem_cons.mp hp with h | h
      · subst h; simp
      · exact ih p h
    · rw [splitDots, if_neg hc] at hp
      cases hsp : splitDots cs with
      | nil =>
        rw [hsp] at hp
        simp only [List.mem_singleton] at hp
        subst hp
        simp only [List.mem_singleton]
        exact fun h => hc h.symm
      | cons q qs =>
        rw [hsp] at hp
        rcases List.mem_cons.mp hp with h | h
        · subst h
          intro hmem
          rcases List.mem_cons.mp hmem with h1 | h1
          · exact hc h1.symm
          · exact ih q (hsp ▸ List.mem_cons_self q qs) h1
        · exact ih p (hsp ▸ List.mem_cons_of_mem q h)

/-- Splitting at the first separator is unique: if neither left part
contains the separator, equal concatenations force equal parts. -/
theorem append_dot_inj (a : List Char) : ∀ x b y : List Char, '.' ∉ a → '.' ∉ x →
    a ++ '.' :: b = x ++ '.' :: y → a = x ∧ b = y := by
  induction a with
  | nil =>
    intro x b y _ hx h
    cases x with
    | nil => simpa using h
    | cons d x' =>
      simp only [List.nil_append, List.cons_append, List.cons.injEq] at h
      exact absurd (h.1 ▸ List.mem_cons_self d x') hx
  | cons c a' ih =>
    intro x b y ha hx h
    cases x with
    | nil =>
      simp only [List.cons_append, List.nil_append, List.cons.injEq] at h
      exact absurd (h.1 ▸ List.mem_cons_self c a') ha
    | cons d x' =>
      simp only [List.cons_append, List.cons.injEq] at h
      obtain ⟨rfl, h2⟩ := h
      have ha' : '.' ∉ a' := fun hm => ha (List.mem_cons_of_mem _ hm)
      have hx' : '.' ∉ x' := fun hm => hx (List.mem_cons_of_mem _ hm)
      obtain ⟨h3, h4⟩ := ih x' b y ha' hx' h2
      exact ⟨by rw [h3], h4⟩

/-- For a list of separator-free pieces, rejoining to `"0.1"` happens
exactly when the pieces are `["0", "1"]`. -/
theorem joinDots_eq_iff (l : List (List Char)) (hl : ∀ p ∈ l, '.' ∉ p) :
    joinDots l = ['0', '.', '1'] ↔ l = [['0'], ['1']] := by
  constructor
  · intro h
    cases l with
    | nil => simp [joinDots] at h
    | cons a t =>
      cases t with
      | nil =>
        simp only [joinDots] at h
        subst h
        exact absurd (by simp) (hl ['0', '.', '1'] (by simp))
      | cons b rest =>
        have hjoin : joinDots (a :: b :: rest) = a ++ '.' :: joinDots (b :: rest) := rfl
        rw [hjoin] at h
        have hsplit := append_dot_inj a ['0'] (joinDots (b :: rest)) ['1']
          (hl a (by simp)) (by simp) (by simpa using h)
        obtain ⟨ha, hbr⟩ := hsplit
        cases rest with
        | nil =>
          simp only [joinDots] at hbr
          rw [ha, hbr]
        | cons c rest' =>
          have hj2 : joinDots (b :: c :: rest') = b ++ '.' :: joinDots (c :: rest') := rfl
          rw [hj2] at hbr
          have hd : ('.' : Char) ∈ b ++ '.' :: joinDots (c :: rest') := by simp
          rw [hbr] at hd
          simp at hd
  · rintro rfl; rfl

/-- The compatibility test the code performs coincides, on every version
string, with the predicate as the specification words it. -/
theorem compatCheck_eq_spec (version : String) :
    compatCheck version = specIsPackageCompatible version := by
  have h1 : ∀ p ∈ (splitDots version.data).take 2, '.' ∉ p :=
    fun p hp => splitDots_no_dot version.data p (List.take_subset 2 _ hp)
  simp only [compatCheck, specIsPackageCompatible, COMPATIBLE_DFTK, majorMinor,
    List.any_cons, List.any_nil, Bool.or_false]
  rw [show splitDots ("0.1" : String).data = [['0'], ['1']] from by decide]
  by_cases hl2 : (splitDots version.data).take 2 = [['0'], ['1']]
  · rw [show ((splitDots version.data).take 2 == [['0'], ['1']]) = true from beq_iff_eq.mpr hl2,
      show (joinDots ((splitDots version.data).take 2) == ['0', '.', '1']) = true from
        beq_iff_eq.mpr ((joinDots_eq_iff _ h1).mpr hl2)]
  · rw [show ((splitDots version.data).take 2 == [['0'], ['1']]) = false from
        beq_eq_false_iff_ne.mpr hl2,
      show (joinDots ((splitDots version.data).take 2) == ['0', '.', '1']) = false from
        beq_eq_false_iff_ne.mpr (fun hc => hl2 ((joinDots_eq_iff _ h1).mp hc))]

/-! ## Claim theorems -/

/-- C1: for every detected version string, `has_compatible_dftk` returns
false when the DFTK package cannot be imported via the bridge, and
otherwise returns true exactly when the first two dot-separated components
(major.minor) of the detected version equal some entry of
`COMPATIBLE_DFTK`, any patch component ignored. -/
theorem c1_has_compatible_dftk_spec (e : Env) (version : String)
    (hv : dftk_version e = Except.ok version) :
    (e.dftkImportable = false → has_compatible_dftk e = Except.ok false) ∧
    (e.dftkImportable = true →
      (has_compatible_dftk e = Except.ok true ↔
        specIsPackageCompatible version = true)) := by
  constructor
  · intro h
    simp [has_compatible_dftk, h]
  · intro h
    simp only [has_compatible_dftk, h, Bool.true_eq_false, if_false, hv, Except.map,
      Except.ok.injEq]
    rw [compatCheck_eq_spec]

/-- Witness for C1 at a healthy environment with DFTK 0.1.7 installed. -/
theorem c1_witness :
    dftk_version envGood = Except.ok "0.1.7" ∧
    ((envGood.dftkImportable = false → has_compatible_dftk envGood = Except.ok false) ∧
     (envGood.dftkImportable = true →
       (has_compatible_dftk envGood = Except.ok true ↔
         specIsPackageCompatible "0.1.7" = true))) :=
  ⟨rfl, c1_has_compatible_dftk_spec envGood "0.1.7" rfl⟩

/-- C5: in an environment where the JSON and DFTK packages are already
importable through the bridge, `install` performs no package additions, so
a second call after a successful first call adds nothing. -/
theorem c5_install_idempotent (e : Env) (hj : e.juliaPresent = true)
    (h1 : e.dftkImportable = true) (h2 : e.jsonImportable = true) :
    install e = Except.ok { bridgeInstallerCalled := true, adds := [] } := by
  simp [install, hj, h1, h2]

/-- Witness for C5 at a healthy environment. -/
theorem c5_witness :
    envGood.juliaPresent = true ∧ envGood.dftkImportable = true ∧
    envGood.jsonImportable = true ∧
    install envGood = Except.ok { bridgeInstallerCalled := true, adds := [] } :=
  ⟨rfl, rfl, rfl, c5_install_idempotent envGood rfl rfl rfl⟩

/-- C7: when the bridge works but its Julia is below 1.4.0, `dftk_version`
returns the default derived from the compatibility set, namely
`COMPATIBLE_DFTK[0] + ".0"`, which is the string `"0.1.0"`. -/
theorem c7_dftk_version_fallback (e : Env) (hj : e.juliaPresent = true)
    (hb : e.bridgeSupported = true) (hv : e.juliaVersion.verGE ⟨1, 4, 0⟩ = false) :
    dftk_version e = Except.ok (COMPATIBLE_DFTK.headD "" ++ ".0") ∧
    COMPATIBLE_DFTK.headD "" ++ ".0" = "0.1.0" := by
  refine ⟨?_, by decide⟩
  simp [dftk_version, hj, hb, hv]

/-- Witness for C7 at a Julia 1.3.5 environment. -/
theorem c7_witness :
    envJulia13.juliaVersion.verGE ⟨1, 4, 0⟩ = false ∧
    dftk_version envJulia13 = Except.ok (COMPATIBLE_DFTK.headD "" ++ ".0") ∧
    COMPATIBLE_DFTK.headD "" ++ ".0" = "0.1.0" :=
  ⟨rfl, c7_dftk_version_fallback envJulia13 rfl rfl rfl⟩

/-- C8: when the bridge loads successfully but the DFTK package is absent
or incompatible, the adapter name is withheld from the public surface and
exactly one remediation warning is emitted, distinct from the two
bridge-failure warnings. -/
theorem c8_incompatible_dftk_warning (e : Env) (hj : e.juliaPresent = true)
    (hb : e.bridgeSupported = true) (hv : e.juliaVersion.verGE ⟨1, 3, 0⟩ = true)
    (hc : has_compatible_dftk e = Except.ok false) :
    module_load e = Except.ok (["install", "dftk_version"], [msgNoCompatibleDftk]) ∧
    "DFTK" ∉ ["install", "dftk_version"] ∧
    msgNoCompatibleDftk ≠ msgJuliaNotFound ∧
    msgNoCompatibleDftk ≠ msgUnsupportedPython := by
  refine ⟨?_, by decide, by decide, by decide⟩
  simp [module_load, check_julia, hj, hb, hv, truthy, hc]

/-- Witness for C8 at an environment whose installed DFTK is too new. -/
theorem c8_witness :
    has_compatible_dftk envDftkTooNew = Except.ok false ∧
    module_load envDftkTooNew =
      Except.ok (["install", "dftk_version"], [msgNoCompatibleDftk]) ∧
    "DFTK" ∉ ["install", "dftk_version"] :=
  ⟨rfl, (c8_incompatible_dftk_warning envDftkTooNew rfl rfl rfl rfl).1,
    (c8_incompatible_dftk_warning envDftkTooNew rfl rfl rfl rfl).2.1⟩

/-- C9: whenever DFTK is importable and the bridge runs a Julia below
1.4.0, the fallback version string always passes the compatibility check,
so `has_compatible_dftk` returns true. -/
theorem c9_fallback_always_compatible (e : Env) (hj : e.juliaPresent = true)
    (hb : e.bridgeSupported = true) (hd : e.dftkImportable = true)
    (hv : e.juliaVersion.verGE ⟨1, 4, 0⟩ = false) :
    has_compatible_dftk e = Except.ok true ∧
    compatCheck (COMPATIBLE_DFTK.headD "" ++ ".0") = true := by
  refine ⟨?_, by decide⟩
  have hver : dftk_version e = Except.ok (COMPATIBLE_DFTK.headD "" ++ ".0") := by
    simp [dftk_version, hj, hb, hv]
  simp only [has_compatible_dftk, hd, Bool.true_eq_false, if_false, hver, Except.map,
    Except.ok.injEq]
  decide

/-- Witness for C9 at a Julia 1.3.5 environment. -/
theorem c9_witness :
    envJulia13.dftkImportable = true ∧
    has_compatible_dftk envJulia13 = Except.ok true :=
  ⟨rfl, (c9_fallback_always_compatible envJulia13 rfl rfl rfl rfl).1⟩

/-- C10: when the bridge supports manifest introspection (Julia at least
1.4.0) but DFTK is not among the dependencies, `dftk_version` raises the
Julia `BoundsError` from indexing `[end]` on an empty list instead of
returning a default. -/
theorem c10_dftk_version_raises_without_dep (e : Env) (hj : e.juliaPresent = true)
    (hb : e.bridgeSupported = true) (hv : e.juliaVersion.verGE ⟨1, 4, 0⟩ = true)
    (hd : ∀ p ∈ e.deps, p.fst ≠ "DFTK") :
    dftk_version e = Except.error PyErr.juliaBoundsError := by
  have hf : e.deps.filter (fun p => p.fst == "DFTK") = [] := by
    rw [List.filter_eq_nil_iff]
    intro a ha
    simp [hd a ha]
  simp [dftk_version, hj, hb, hv, hf]

/-- Witness for C10 at a modern-Julia environment whose manifest lacks
DFTK. -/
theorem c10_witness :
    envNoDftkDep.juliaVersion.verGE ⟨1, 4, 0⟩ = true ∧
    dftk_version envNoDftkDep = Except.error PyErr.juliaBoundsError :=
  ⟨rfl, c10_dftk_version_raises_without_dep envNoDftkDep rfl rfl rfl (by decide)⟩

/-- C2 counterexample: with the bridge package absent — a load-time
compatibility failure — the module import raises an `ImportError` instead
of degrading to a warning, because `import julia` inside `check_julia`
sits outside the `try` block. -/
theorem c2_counterexample :
    envBridgeAbsent.juliaPresent = false ∧
    module_load envBridgeAbsent = Except.error (PyErr.importError msgNoJuliaModule) :=
  ⟨rfl, rfl⟩

/-- C2 (amended): only the mis-provisioned-bridge and incompatible-package
failures degrade to warnings with the adapter withheld; an absent bridge
or a bridge below the minimum version makes the module import raise an
`ImportError`. -/
theorem c2_amended_load_failure_policy (e : Env) :
    (e.juliaPresent = false →
      module_load e = Except.error (PyErr.importError msgNoJuliaModule)) ∧
    (e.juliaPresent = true → e.bridgeSupported = false →
      module_load e =
        Except.ok (["install", "dftk_version"],
          [msgUnsupportedPython, msgJuliaNotFound])) ∧
    (e.juliaPresent = true → e.bridgeSupported = true →
      e.juliaVersion.verGE ⟨1, 3, 0⟩ = false →
      module_load e = Except.error (PyErr.importError msgJuliaTooOld)) ∧
    (e.juliaPresent = true → e.bridgeSupported = true →
      e.juliaVersion.verGE ⟨1, 3, 0⟩ = true →
      has_compatible_dftk e = Except.ok false →
      module_load e = Except.ok (["install", "dftk_version"], [msgNoCompatibleDftk])) := by
  refine ⟨fun h1 => ?_, fun h1 h2 => ?_, fun h1 h2 h3 => ?_, fun h1 h2 h3 h4 => ?_⟩
  all_goals simp [module_load, check_julia, truthy, *]

/-- Witness for the amended C2 at a mis-provisioned-bridge environment. -/
theorem c2_amended_witness :
    envMisProvisioned.juliaPresent = true ∧
    envMisProvisioned.bridgeSupported = false ∧
    module_load envMisProvisioned =
      Except.ok (["install", "dftk_version"], [msgUnsupportedPython, msgJuliaNotFound]) :=
  ⟨rfl, rfl, (c2_amended_load_failure_policy envMisProvisioned).2.1 rfl rfl⟩

/-- C3 counterexample: with a bridge whose Julia version 1.2.0 is below
the minimum 1.3.0, `check_julia` raises an `ImportError` instead of
returning false, because the `ImportError` it raises is not caught by the
`except julia.core.UnsupportedPythonError` clause. -/
theorem c3_counterexample :
    envOldJulia.bridgeSupported = true ∧
    envOldJulia.juliaVersion.verGE ⟨1, 3, 0⟩ = false ∧
    check_julia envOldJulia = Except.error (PyErr.importError msgJuliaTooOld) :=
  ⟨rfl, rfl, rfl⟩

/-- C3 (amended): `check_julia` returns the falsy value `None` and emits a
diagnostic only when the bridge is mis-provisioned
(`UnsupportedPythonError`); when the bridge is absent, or present with a
Julia below 1.3.0, it raises an `ImportError` instead. -/
theorem c3_amended_check_julia_behaviour (e : Env) :
    (e.juliaPresent = true → e.bridgeSupported = false →
      check_julia e = Except.ok (none, [msgUnsupportedPython]) ∧
        truthy none = false) ∧
    (e.juliaPresent = false →
      check_julia e = Except.error (PyErr.importError msgNoJuliaModule)) ∧
    (e.juliaPresent = true → e.bridgeSupported = true →
      e.juliaVersion.verGE ⟨1, 3, 0⟩ = false →
      check_julia e = Except.error (PyErr.importError msgJuliaTooOld)) := by
  refine ⟨fun h1 h2 => ⟨?_, rfl⟩, fun h1 => ?_, fun h1 h2 h3 => ?_⟩
  all_goals simp [check_julia, *]

/-- Witness for the amended C3 at a mis-provisioned-bridge environment. -/
theorem c3_amended_witness :
    envMisProvisioned.juliaPresent = true ∧
    envMisProvisioned.bridgeSupported = false ∧
    check_julia envMisProvisioned = Except.ok (none, [msgUnsupportedPython]) :=
  ⟨rfl, rfl, ((c3_amended_check_julia_behaviour envMisProvisioned).1 rfl rfl).1⟩

/-- C4 counterexample: with a mis-provisioned bridge — the only
bridge-failure mode where the import completes — the adapter is withheld
but two remediation warnings are emitted during the import, not exactly
one: the one from `check_julia` and the one from the load block. -/
theorem c4_counterexample :
    module_load envMisProvisioned =
      Except.ok (["install", "dftk_version"], [msgUnsupportedPython, msgJuliaNotFound]) ∧
    [msgUnsupportedPython, msgJuliaNotFound].length ≠ 1 :=
  ⟨rfl, by decide⟩

/-- C4 (amended): when the bridge cannot be loaded and the module import
nevertheless completes (mis-provisioned bridge), the adapter name is
absent from the public surface and exactly two remediation warnings are
emitted; when the bridge package is absent the import raises instead and
no public surface is produced. -/
theorem c4_amended_bridge_failure_surface (e : Env) :
    (e.juliaPresent = true → e.bridgeSupported = false →
      module_load e =
        Except.ok (["install", "dftk_version"],
          [msgUnsupportedPython, msgJuliaNotFound]) ∧
      "DFTK" ∉ ["install", "dftk_version"] ∧
      [msgUnsupportedPython, msgJuliaNotFound].length = 2) ∧
    (e.juliaPresent = false →
      module_load e = Except.error (PyErr.importError msgNoJuliaModule)) := by
  refine ⟨fun h1 h2 => ⟨?_, by decide, rfl⟩, fun h1 => ?_⟩
  all_goals simp [module_load, check_julia, truthy, *]

/-- Witness for the amended C4 at a mis-provisioned-bridge environment. -/
theorem c4_amended_witness :
    envMisProvisioned.juliaPresent = true ∧
    envMisProvisioned.bridgeSupported = false ∧
    module_load envMisProvisioned =
      Except.ok (["install", "dftk_version"], [msgUnsupportedPython, msgJuliaNotFound]) ∧
    "DFTK" ∉ ["install", "dftk_version"] :=
  ⟨rfl, rfl, ((c4_amended_bridge_failure_surface envMisProvisioned).1 rfl rfl).1,
    ((c4_amended_bridge_failure_surface envMisProvisioned).1 rfl rfl).2.1⟩

/-- C6 counterexample: in an environment where JSON is importable but DFTK
is not, `install` still issues `Pkg.add("JSON")` — a package that is
already importable is re-added, because a single `try` covers both imports
and its handler adds both packages. -/
theorem c6_counterexample :
    envJsonOnly.jsonImportable = true ∧
    install envJsonOnly = Except.ok
      { bridgeInstallerCalled := true
        adds := [⟨"JSON", none⟩, ⟨"DFTK", some "0.1"⟩] } :=
  ⟨rfl, rfl⟩

/-- C6 (amended): `install` first delegates to the bridge installer, then
adds nothing when both JSON and DFTK are importable; if either of the two
is missing it adds both packages — DFTK pinned to the last entry of
`COMPATIBLE_DFTK` — even one that is already importable. -/
theorem c6_amended_install_adds (e : Env) (hj : e.juliaPresent = true) :
    ∃ t : InstallTrace, install e = Except.ok t ∧
      t.bridgeInstallerCalled = true ∧
      (e.dftkImportable = true → e.jsonImportable = true → t.adds = []) ∧
      ((e.dftkImportable && e.jsonImportable) = false →
        t.adds = [⟨"JSON", none⟩, ⟨"DFTK", some (COMPATIBLE_DFTK.getLastD "")⟩]) := by
  by_cases hc : (e.dftkImportable && e.jsonImportable) = true
  · refine ⟨{ bridgeInstallerCalled := true, adds := [] }, ?_, rfl, fun _ _ => rfl, ?_⟩
    · simp [install, hj, hc]
    · intro hf
      rw [hc] at hf
      exact absurd hf (by decide)
  · have hf : (e.dftkImportable && e.jsonImportable) = false := by
      cases h : (e.dftkImportable && e.jsonImportable)
      · rfl
      · exact absurd h hc
    refine ⟨{ bridgeInstallerCalled := true
              adds := [⟨"JSON", none⟩, ⟨"DFTK", some (COMPATIBLE_DFTK.getLastD "")⟩] },
      ?_, rfl, ?_, fun _ => rfl⟩
    · simp [install, hj, hf]
    · intro h1 h2
      rw [h1, h2] at hf
      exact absurd hf (by decide)

/-- Witness for the amended C6 at the JSON-only environment. -/
theorem c6_amended_witness :
    envJsonOnly.juliaPresent = true ∧
    ∃ t : InstallTrace, install envJsonOnly = Except.ok t ∧
      t.bridgeInstallerCalled = true ∧
      (envJsonOnly.dftkImportable = true → envJsonOnly.jsonImportable = true →
        t.adds = []) ∧
      ((envJsonOnly.dftkImportable && envJsonOnly.jsonImportable) = false →
        t.adds = [⟨"JSON", none⟩, ⟨"DFTK", some (COMPATIBLE_DFTK.getLastD "")⟩]) :=
  ⟨rfl, c6_amended_install_adds envJsonOnly rfl⟩

end Asedftk
